import Mathlib

/-!
Shallow embedding of the Modbus TCP client core (package `modbustcp`):
the frame codec (`Encode`/`Decode`), the transaction verifier (`Verify`),
the transport session (`Connect`/`Disconnect` and the receive phase of
`Send`), the exception-code mapper (`FailureCodeToError`) and the CRC
checksum engine.

Conventions of the embedding:
- Go byte slices are `List Nat` whose entries model bytes (values < 256);
  wherever Go performs a typed conversion (`uint16(...)`, byte reads feeding
  `binary.BigEndian.Uint16`) the embedding takes the value modulo the target
  width, exactly mirroring Go's wraparound semantics.
- Go's bounds-checked indexing is made explicit: an operation that would
  panic at runtime (slice index out of range) is a distinguished
  `outOfRange` result rather than undefined behaviour.
- Network I/O in `Send` is modelled by an explicit byte stream (the bytes
  the peer has made available) together with a trace of the read operations
  the code performs.
-/

namespace ModbusTcp

/-- Models `binary.BigEndian.Uint16(b[i:])` on a byte slice: big-endian 16-bit read
of the two bytes at offsets `i` and `i+1`. Entries are reduced mod 256
because Go's `byte` type cannot hold larger values. Total version, used where
the surrounding code has already established the bounds. -/
def readU16 (b : List Nat) (i : Nat) : Nat :=
  (b.getD i 0 % 256) * 256 + b.getD (i + 1) 0 % 256

/-- The protocol data unit: function code plus opaque payload
(`type Pdu struct { FunctionCode byte; Data []byte }`). -/
structure Pdu where
  FunctionCode : Nat
  Data : List Nat
  deriving DecidableEq

/-- The session state (`type ModbusTcpClient struct`). `Timeout` is in
milliseconds (Go stores a `time.Duration`; the unit choice is immaterial to
the control flow, which only compares with 0 and with the 5000 ms default).
`Conn` is `some ()` when a live connection handle is held, `none` for Go's
`nil`. The `Logger` field is omitted: it is purely observational. -/
structure ModbusTcpClient where
  IpAddress : String
  Port : Int
  Timeout : Int
  SlaveId : Nat
  TransactionId : Nat
  Conn : Option Unit
  deriving DecidableEq

/-- Constant `HeaderSize = 7` from the source. -/
def HeaderSize : Nat := 7

/-- Constant `MaxLength = 260` from the source. -/
def MaxLength : Nat := 260

/-- Constant `TimeoutMillis = 5000` from the source. -/
def TimeoutMillis : Int := 5000

/-- Models `func (c *ModbusTcpClient) Encode(pdu *Pdu) ([]byte, error)`.
Increments the session's 16-bit transaction counter (uint16 wraparound),
then builds the 7-byte MBAP header followed by function code and payload:
big-endian transaction id at 0, protocol id 0 at 2, big-endian length
`uint16(1 + 1 + len(Data))` at 4, slave id at 6, function code at 7,
payload from 8. Returns the frame and the updated session; the Go code has
no error path (always returns `nil` error). -/
def Encode (c : ModbusTcpClient) (pdu : Pdu) : List Nat × ModbusTcpClient :=
  let tid := (c.TransactionId + 1) % 65536
  let len16 := (1 + 1 + pdu.Data.length) % 65536
  let adu := tid / 256 :: tid % 256 ::
    0 :: 0 ::
    len16 / 256 :: len16 % 256 ::
    c.SlaveId ::
    pdu.FunctionCode ::
    pdu.Data
  (adu, { c with TransactionId := tid })

/-- Result of `Decode`: `outOfRange` models the Go runtime panic raised by
`binary.BigEndian.Uint16(adu[4:])` when the slice has no bytes at offsets
4 and 5; `framingError` is the `fmt.Errorf` length-mismatch return;
`ok` carries the decoded function code and payload. -/
inductive DecodeResult where
  | outOfRange : DecodeResult
  | framingError : DecodeResult
  | ok (functionCode : Nat) (data : List Nat) : DecodeResult
  deriving DecidableEq

/-- Models `func (c *ModbusTcpClient) Decode(adu []byte) (*Pdu, error)`.
Reads the 16-bit length field at offset 4 (panics if fewer than 6 bytes),
computes `pduLength = len(adu) - HeaderSize` as a Go `int` (may be
negative), and fails when `pduLength <= 0 || pduLength != int(length-1)`;
`length-1` is uint16 arithmetic, so a zero length field compares against
65535. On success returns byte 7 as function code, bytes from 8 as data. -/
def Decode (adu : List Nat) : DecodeResult :=
  if adu.length < 6 then DecodeResult.outOfRange
  else
    let len16 := readU16 adu 4
    let pduLength : Int := (adu.length : Int) - (HeaderSize : Int)
    if pduLength ≤ 0 ∨ pduLength ≠ ((len16 + 65535) % 65536 : Nat) then
      DecodeResult.framingError
    else
      DecodeResult.ok (adu.getD 7 0) (adu.drop 8)

/-- Result of `Verify`: one constructor per `return err` site, in source
order, plus `outOfRange` for the Go runtime panic when a frame is too short
for the field being read. -/
inductive VerifyResult where
  | outOfRange : VerifyResult
  | txMismatch : VerifyResult
  | protoMismatch : VerifyResult
  | unitMismatch : VerifyResult
  | ok : VerifyResult
  deriving DecidableEq

/-- Models `func (c *ModbusTcpClient) Verify(aduRequest, aduResponse []byte) error`.
Compares the big-endian 16-bit transaction id at offset 0, then the
protocol id at offset 2, then the unit id byte at offset 6, returning the
first mismatch found; `nil` (here `ok`) when all three agree. Each read
panics when its frame is shorter than the bytes it touches. -/
def Verify (aduRequest aduResponse : List Nat) : VerifyResult :=
  if aduResponse.length < 2 ∨ aduRequest.length < 2 then VerifyResult.outOfRange
  else if readU16 aduResponse 0 ≠ readU16 aduRequest 0 then VerifyResult.txMismatch
  else if aduResponse.length < 4 ∨ aduRequest.length < 4 then VerifyResult.outOfRange
  else if readU16 aduResponse 2 ≠ readU16 aduRequest 2 then VerifyResult.protoMismatch
  else if aduResponse.length < 7 ∨ aduRequest.length < 7 then VerifyResult.outOfRange
  else if aduResponse.getD 6 0 ≠ aduRequest.getD 6 0 then VerifyResult.unitMismatch
  else VerifyResult.ok

/-- The address string `Connect` passes to `dialer.Dial("tcp", ...)`:
the source passes `c.IpAddress` alone. -/
def connectAddr (c : ModbusTcpClient) : String :=
  c.IpAddress

/-- Per the spec's words (§4.4: "Opens a stream connection to `host:port`"):
the address the spec says `connect` dials, formed from the session's host
and port fields. Stated separately so it can be compared with
`connectAddr`, which follows the source. -/
def specConnectAddr (c : ModbusTcpClient) : String :=
  c.IpAddress ++ ":" ++ toString c.Port

/-- Models `func (c *ModbusTcpClient) Connect() error`.
If `c.Timeout <= 0`, sets it to the 5000 ms default; then dials
`connectAddr c` and stores the resulting handle (Go's `c.Conn = conn` runs
on both outcomes; on a dial error the handle is `nil`). `dialOk` is the
environment's dial outcome; the Bool returned is `true` when an error is
returned to the caller. -/
def Connect (c : ModbusTcpClient) (dialOk : Bool) : ModbusTcpClient × Bool :=
  let c1 := if c.Timeout ≤ 0 then { c with Timeout := TimeoutMillis } else c
  if dialOk then ({ c1 with Conn := some () }, false)
  else ({ c1 with Conn := none }, true)

/-- Models `func (c *ModbusTcpClient) Disconnect() error`.
If a connection is held, calls `Close()`; on a close error it returns that
error immediately, leaving `c.Conn` untouched; only on a successful close
does it set `c.Conn = nil`. With no connection it is a no-op returning
`nil`. `closeErr` is the environment's `Close()` outcome; the Bool returned
is `true` when an error is returned to the caller. -/
def Disconnect (c : ModbusTcpClient) (closeErr : Bool) : ModbusTcpClient × Bool :=
  match c.Conn with
  | none => (c, false)
  | some _ => if closeErr then (c, true) else ({ c with Conn := none }, false)

/-- A read operation `Send` performs on the connection, in order:
`readFull n` is `io.ReadFull` of exactly `n` bytes; `drainRead` is the
`flush` helper's single best-effort read under an already-expired
deadline. -/
inductive ReadOp where
  | readFull (n : Nat) : ReadOp
  | drainRead : ReadOp
  deriving DecidableEq

/-- Outcome of the receive phase of `Send`. -/
inductive SendResult where
  | ioError : SendResult
  | framingError : SendResult
  | ok (response : List Nat) : SendResult
  deriving DecidableEq

/-- The receive phase of `func (c *ModbusTcpClient) Send(request []byte)`,
after the connection is up and the request was written: `stream` is the
byte sequence the peer has made available, consumed in order. Mirrors the
source: read exactly 7 header bytes (`io.ReadFull`), take the 16-bit
length field at offset 4; if it is zero, or greater than
`MaxLength - (HeaderSize - 1) = 254`, call `flush` (one drain read) and
return the framing error without reading a body; otherwise read
`length - 1` further bytes and return the `length + 6`-byte frame.
Returns the outcome paired with the trace of read operations performed. -/
def SendRecv (stream : List Nat) : SendResult × List ReadOp :=
  if stream.length < 7 then (SendResult.ioError, [ReadOp.readFull 7])
  else
    let len16 := readU16 stream 4
    if len16 = 0 then
      (SendResult.framingError, [ReadOp.readFull 7, ReadOp.drainRead])
    else if MaxLength - (HeaderSize - 1) < len16 then
      (SendResult.framingError, [ReadOp.readFull 7, ReadOp.drainRead])
    else if stream.length < len16 + 6 then
      (SendResult.ioError, [ReadOp.readFull 7, ReadOp.readFull (len16 - 1)])
    else
      (SendResult.ok (stream.take (len16 + 6)),
        [ReadOp.readFull 7, ReadOp.readFull (len16 - 1)])

/-- The typed errors of the exception-code table (`ErrorIllegalFunction`,
..., `ErrorUnknown`). -/
inductive ModbusError where
  | illegalFunction : ModbusError
  | illegalDataAddress : ModbusError
  | illegalDataValue : ModbusError
  | slaveDeviceFailure : ModbusError
  | acknowledge : ModbusError
  | slaveIsBusy : ModbusError
  | gatewayPathUnavailable : ModbusError
  | unknown : ModbusError
  deriving DecidableEq

/-- Constant `ExcIllegalFunction = 1` from the source. -/
def ExcIllegalFunction : Int := 1

/-- Constant `ExcIllegalDataAdr = 2` from the source. -/
def ExcIllegalDataAdr : Int := 2

/-- Constant `ExcIllegalDataVal = 3` from the source. -/
def ExcIllegalDataVal : Int := 3

/-- Constant `ExcSlaveDeviceFailure = 4` from the source. -/
def ExcSlaveDeviceFailure : Int := 4

/-- Constant `ExcAcknowledge = 5` from the source. -/
def ExcAcknowledge : Int := 5

/-- Constant `ExcSlaveIsBusy = 6` from the source. -/
def ExcSlaveIsBusy : Int := 6

/-- Constant `ExcGatePathUnavailable = 10` from the source. -/
def ExcGatePathUnavailable : Int := 10

/-- Models `func FailureCodeToError(errorCode int) error`: the switch over the
exception codes, with `ErrorUnknown` as the default case. -/
def FailureCodeToError (errorCode : Int) : ModbusError :=
  if errorCode = ExcIllegalFunction then ModbusError.illegalFunction
  else if errorCode = ExcIllegalDataAdr then ModbusError.illegalDataAddress
  else if errorCode = ExcIllegalDataVal then ModbusError.illegalDataValue
  else if errorCode = ExcSlaveDeviceFailure then ModbusError.slaveDeviceFailure
  else if errorCode = ExcAcknowledge then ModbusError.acknowledge
  else if errorCode = ExcSlaveIsBusy then ModbusError.slaveIsBusy
  else if errorCode = ExcGatePathUnavailable then ModbusError.gatewayPathUnavailable
  else ModbusError.unknown

/-- One round of the reflected CRC-16 reduction with polynomial 0xA001:
if the low bit is set, shift right by one and XOR with 0xA001, else just
shift right by one (spec §4.1). -/
def crcRound (s : Nat) : Nat :=
  if s % 2 = 1 then (s / 2) ^^^ 0xA001 else s / 2

/-- Fold one byte into the CRC register: XOR it into the low 8 bits, then
eight reduction rounds (spec §4.1). -/
def crcPushByte (s b : Nat) : Nat :=
  crcRound (crcRound (crcRound (crcRound
    (crcRound (crcRound (crcRound (crcRound (s ^^^ b % 256))))))))

/-- Modelled from the spec: the checksum engine (`CRC` with `Reset`,
`PushBytes`, `Value`, exercised by `TestCRC` in
`src/modbusprotocol_test.go`) has no implementation under `src/`; only its
test appears there. The register and the per-byte reduction follow spec
§4.1 verbatim (seed 0xFFFF, reflected polynomial 0xA001). -/
structure CRC where
  reg : Nat
  deriving DecidableEq

/-- Modelled from the spec: `reset()` sets the register to the fixed seed
0xFFFF (spec §4.1). -/
def CRC.Reset : CRC := ⟨0xFFFF⟩

/-- Modelled from the spec: `pushBytes` folds each byte in order into the
register via the §4.1 reduction. -/
def CRC.PushBytes (c : CRC) (bs : List Nat) : CRC :=
  ⟨bs.foldl crcPushByte c.reg⟩

/-- Modelled from the spec and the in-repo test: `value()` reads the
accumulator out as a 16-bit value. The §4.1 reduction leaves register
0x1241 after pushing [0x02, 0x07], while `TestCRC` in
`src/modbusprotocol_test.go` requires `Value()` to be 0x4112, so `Value`
returns the register with its two bytes swapped (the CRC in Modbus
transmit order, low byte first, read back as a big-endian number) —
as table-based Modbus CRC implementations do. -/
def CRC.Value (c : CRC) : Nat :=
  (c.reg % 256) * 256 + c.reg / 256 % 256

/-! ## Shared helper lemmas -/

/-- A concrete session used by witnesses: host "10.0.0.1", port 502, no
timeout configured, slave id 17, transaction counter at 65535, no
connection. -/
def demoClient : ModbusTcpClient :=
  ⟨"10.0.0.1", 502, 0, 17, 65535, none⟩

/-- The demo session with a live connection handle. -/
def demoConnected : ModbusTcpClient :=
  { demoClient with Conn := some () }

/-- Lemma: `List.getD` of a `take` agrees with `getD` of the list at indices below
the cut. -/
theorem getD_take_eq (l : List Nat) (n i : Nat) (hi : i < n) :
    (l.take n).getD i 0 = l.getD i 0 := by
  induction l generalizing n i with
  | nil => simp
  | cons a t ih =>
    cases n with
    | zero => omega
    | succ m =>
      cases i with
      | zero => simp
      | succ j =>
        simp only [List.take_succ_cons, List.getD_cons_succ]
        exact ih m j (by omega)

/-- Two lists agreeing on their first seven entries have equal `getD` at
indices below seven. -/
theorem getD_eq_of_take7 (l l' : List Nat) (h : l.take 7 = l'.take 7)
    (i : Nat) (hi : i < 7) : l.getD i 0 = l'.getD i 0 := by
  rw [← getD_take_eq l 7 i hi, ← getD_take_eq l' 7 i hi, h]

/-- On frames of at least seven bytes `Verify` never hits a bounds panic
and is the three-way field comparison in source order. -/
theorem verify_fields (req res : List Nat) (hreq : 7 ≤ req.length)
    (hres : 7 ≤ res.length) :
    Verify req res =
      if readU16 res 0 ≠ readU16 req 0 then VerifyResult.txMismatch
      else if readU16 res 2 ≠ readU16 req 2 then VerifyResult.protoMismatch
      else if res.getD 6 0 ≠ req.getD 6 0 then VerifyResult.unitMismatch
      else VerifyResult.ok := by
  simp only [Verify]
  rw [if_neg (by omega)]
  by_cases h0 : readU16 res 0 ≠ readU16 req 0
  · rw [if_pos h0, if_pos h0]
  · rw [if_neg h0, if_neg h0, if_neg (by omega)]
    by_cases h2 : readU16 res 2 ≠ readU16 req 2
    · rw [if_pos h2, if_pos h2]
    · rw [if_neg h2, if_neg h2, if_neg (by omega)]

/-! ## Claims -/

/-- C1: for every session state, every function code, and every payload of
length 0 to 252, decoding the frame produced by encoding that
(function code, payload) on the session returns exactly the same function
code and the same payload bytes, with no error. -/
theorem encode_decode_roundtrip (c : ModbusTcpClient) (pdu : Pdu)
    (h : pdu.Data.length ≤ 252) :
    Decode (Encode c pdu).1 = DecodeResult.ok pdu.FunctionCode pdu.Data := by
  have hL : (1 + 1 + pdu.Data.length) % 65536 = 2 + pdu.Data.length :=
    Nat.mod_eq_of_lt (by omega)
  simp only [Encode, Decode, readU16, HeaderSize, List.length_cons,
    List.getD_cons_succ, List.getD_cons_zero, hL]
  rw [if_neg (by omega), if_neg (by push_cast; omega)]
  simp

/-- C1 witness: the round trip at a concrete session and PDU. -/
theorem encode_decode_roundtrip_witness :
    Decode (Encode demoClient ⟨3, [0, 10, 0, 2]⟩).1 =
      DecodeResult.ok 3 [0, 10, 0, 2] :=
  encode_decode_roundtrip demoClient ⟨3, [0, 10, 0, 2]⟩ (by decide)

/-- C2: for every session state and every PDU (payload short enough for its
length to fit the 16-bit length field, i.e. at most 65533 bytes — within
the protocol's 260-byte frame bound this is vacuous), Encode returns,
without error (the embedding is total, as the source always returns `nil`),
a byte sequence of length 7 + 1 + len(payload) with: big-endian transaction
id at offset 0 equal to the previous counter plus 1 modulo 65536, protocol
id 0 at offset 2, big-endian length field at offset 4 equal to
2 + len(payload), unit id at offset 6, function code at offset 7, payload
from offset 8; and the stored counter afterwards equals the transaction id
written. -/
theorem encode_layout (c : ModbusTcpClient) (pdu : Pdu)
    (h : pdu.Data.length ≤ 65533) :
    (Encode c pdu).1.length = 7 + 1 + pdu.Data.length ∧
    readU16 (Encode c pdu).1 0 = (c.TransactionId + 1) % 65536 ∧
    readU16 (Encode c pdu).1 2 = 0 ∧
    readU16 (Encode c pdu).1 4 = 2 + pdu.Data.length ∧
    (Encode c pdu).1.getD 6 0 = c.SlaveId ∧
    (Encode c pdu).1.getD 7 0 = pdu.FunctionCode ∧
    (Encode c pdu).1.drop 8 = pdu.Data ∧
    (Encode c pdu).2.TransactionId = readU16 (Encode c pdu).1 0 := by
  have hL : (1 + 1 + pdu.Data.length) % 65536 = 2 + pdu.Data.length :=
    Nat.mod_eq_of_lt (by omega)
  refine ⟨?_, ?_, ?_, ?_, ?_, ?_, ?_, ?_⟩ <;>
    simp only [Encode, readU16, List.length_cons, List.getD_cons_succ,
      List.getD_cons_zero, hL] <;>
    first
    | rfl
    | omega

/-- C2 witness: the layout at a concrete session (counter 65535, so the
transaction id wraps to 0) and a 4-byte payload. -/
theorem encode_layout_witness :
    (Encode demoClient ⟨3, [0, 10, 0, 2]⟩).1.length = 7 + 1 + 4 ∧
    readU16 (Encode demoClient ⟨3, [0, 10, 0, 2]⟩).1 0 = 0 ∧
    readU16 (Encode demoClient ⟨3, [0, 10, 0, 2]⟩).1 2 = 0 ∧
    readU16 (Encode demoClient ⟨3, [0, 10, 0, 2]⟩).1 4 = 6 ∧
    (Encode demoClient ⟨3, [0, 10, 0, 2]⟩).1.getD 6 0 = 17 ∧
    (Encode demoClient ⟨3, [0, 10, 0, 2]⟩).1.getD 7 0 = 3 ∧
    (Encode demoClient ⟨3, [0, 10, 0, 2]⟩).1.drop 8 = [0, 10, 0, 2] ∧
    (Encode demoClient ⟨3, [0, 10, 0, 2]⟩).2.TransactionId = 0 := by
  have h := encode_layout demoClient ⟨3, [0, 10, 0, 2]⟩ (by decide)
  revert h
  decide

/-- C3 counterexample: the claim says Decode returns a framing error
(rather than crashing) on every byte sequence shorter than 8 bytes, but on
the empty sequence the source panics — `binary.BigEndian.Uint16(adu[4:])`
runs before any length check and indexes out of range. -/
theorem decode_claim_false_on_empty :
    Decode [] = DecodeResult.outOfRange ∧
    Decode [] ≠ DecodeResult.framingError := by
  decide

/-- C3 (amended): sequences shorter than 6 bytes make Decode panic (the
length field is read before any check). For sequences of at least 6 bytes,
Decode returns a framing error exactly when the sequence is shorter than 8
bytes or `len(frame) - 7 ≠ (length - 1) mod 65536` (uint16 wraparound: a
zero length field compares against 65535), and otherwise succeeds,
returning byte 7 as the function code and the bytes from offset 8 onward
as the payload. -/
theorem decode_characterization (adu : List Nat) :
    (adu.length < 6 → Decode adu = DecodeResult.outOfRange) ∧
    (6 ≤ adu.length →
      (Decode adu = DecodeResult.framingError ↔
        adu.length < 8 ∨
          ((adu.length : Int) - 7) ≠ ((readU16 adu 4 + 65535) % 65536 : Nat))) ∧
    (6 ≤ adu.length →
      ¬(adu.length < 8 ∨
          ((adu.length : Int) - 7) ≠ ((readU16 adu 4 + 65535) % 65536 : Nat)) →
      Decode adu = DecodeResult.ok (adu.getD 7 0) (adu.drop 8)) := by
  refine ⟨?_, ?_, ?_⟩
  · intro h
    simp only [Decode]
    rw [if_pos h]
  · intro h6
    simp only [Decode, HeaderSize, Nat.cast_ofNat]
    rw [if_neg (by omega)]
    by_cases hc : ((adu.length : Int) - (7 : Int) ≤ 0 ∨
        ((adu.length : Int) - (7 : Int)) ≠ ((readU16 adu 4 + 65535) % 65536 : Nat))
    · rw [if_pos hc]
      exact iff_of_true rfl (by omega)
    · rw [if_neg hc]
      exact iff_of_false (by simp) (by omega)
  · intro h6 hn
    simp only [Decode, HeaderSize]
    rw [if_neg (by omega), if_neg (by omega)]

/-- C3 witness: the characterization applied at concrete inputs — a 3-byte
sequence panics, an 8-byte sequence with length field 0 is a framing
error, and a well-formed 8-byte frame with length field 2 decodes to
function code 3 with empty payload. -/
theorem decode_characterization_witness :
    Decode [0, 0, 0] = DecodeResult.outOfRange ∧
    Decode [0, 0, 0, 0, 0, 0, 0, 0] = DecodeResult.framingError ∧
    Decode [0, 1, 0, 0, 0, 2, 17, 3] = DecodeResult.ok 3 [] :=
  ⟨(decode_characterization [0, 0, 0]).1 (by decide),
   ((decode_characterization [0, 0, 0, 0, 0, 0, 0, 0]).2.1 (by decide)).mpr
     (by decide),
   (decode_characterization [0, 1, 0, 0, 0, 2, 17, 3]).2.2 (by decide)
     (by decide)⟩

/-- C4: whenever the peer's response header (7 bytes or more available)
declares a length field of zero, or a length greater than 254 (so the
total frame would exceed 260 bytes), the receive phase of Send returns a
framing error, its read trace being exactly the 7-byte header read
followed by the one best-effort drain read — in particular it never
issues a read for the response body. -/
theorem send_framing_on_bad_length (stream : List Nat)
    (h7 : 7 ≤ stream.length)
    (hlen : readU16 stream 4 = 0 ∨ 254 < readU16 stream 4) :
    SendRecv stream =
      (SendResult.framingError, [ReadOp.readFull 7, ReadOp.drainRead]) := by
  simp only [SendRecv, MaxLength, HeaderSize]
  rw [if_neg (by omega)]
  rcases hlen with h | h
  · rw [if_pos h]
  · rw [if_neg (by omega), if_pos (by omega)]

/-- C4 witness: a 7-byte header with length field 0, and one with length
field 255. -/
theorem send_framing_on_bad_length_witness :
    SendRecv [0, 1, 0, 0, 0, 0, 17] =
      (SendResult.framingError, [ReadOp.readFull 7, ReadOp.drainRead]) ∧
    SendRecv [0, 1, 0, 0, 0, 255, 17] =
      (SendResult.framingError, [ReadOp.readFull 7, ReadOp.drainRead]) :=
  ⟨send_framing_on_bad_length [0, 1, 0, 0, 0, 0, 17] (by decide) (by decide),
   send_framing_on_bad_length [0, 1, 0, 0, 0, 255, 17] (by decide) (by decide)⟩

/-- C5: on frames of at least seven bytes each, Verify succeeds exactly
when transaction id (16-bit big-endian at 0), protocol id (at 2) and unit
id (byte 6) all agree, and otherwise surfaces exactly one error — the
first disagreeing field in the order transaction id, protocol id,
unit id. -/
theorem verify_first_mismatch (req res : List Nat) (hreq : 7 ≤ req.length)
    (hres : 7 ≤ res.length) :
    (Verify req res = VerifyResult.ok ↔
      readU16 res 0 = readU16 req 0 ∧ readU16 res 2 = readU16 req 2 ∧
        res.getD 6 0 = req.getD 6 0) ∧
    (Verify req res = VerifyResult.txMismatch ↔
      readU16 res 0 ≠ readU16 req 0) ∧
    (Verify req res = VerifyResult.protoMismatch ↔
      readU16 res 0 = readU16 req 0 ∧ readU16 res 2 ≠ readU16 req 2) ∧
    (Verify req res = VerifyResult.unitMismatch ↔
      readU16 res 0 = readU16 req 0 ∧ readU16 res 2 = readU16 req 2 ∧
        res.getD 6 0 ≠ req.getD 6 0) := by
  rw [verify_fields req res hreq hres]
  generalize readU16 res 0 = a
  generalize readU16 req 0 = b
  generalize readU16 res 2 = x
  generalize readU16 req 2 = y
  generalize res.getD 6 0 = u
  generalize req.getD 6 0 = v
  by_cases h0 : a = b <;> by_cases h2 : x = y <;> by_cases h6 : u = v <;>
    simp [h0, h2, h6]

/-- C5 witness: frames agreeing on the header except the unit id fail with
the unit-id mismatch; identical headers verify. -/
theorem verify_first_mismatch_witness :
    Verify [0, 1, 0, 0, 0, 2, 17, 3] [0, 1, 0, 0, 0, 2, 18, 3] =
      VerifyResult.unitMismatch ∧
    Verify [0, 1, 0, 0, 0, 2, 17, 3] [0, 1, 0, 0, 0, 2, 17, 3, 9] =
      VerifyResult.ok :=
  ⟨((verify_first_mismatch [0, 1, 0, 0, 0, 2, 17, 3] [0, 1, 0, 0, 0, 2, 18, 3]
      (by decide) (by decide)).2.2.2).mpr (by decide),
   ((verify_first_mismatch [0, 1, 0, 0, 0, 2, 17, 3]
      [0, 1, 0, 0, 0, 2, 17, 3, 9] (by decide) (by decide)).1).mpr (by decide)⟩

/-- C6 counterexample: the claim says that when the session holds a
connection, it ends Disconnected in every case even when close errors; but
when `Close()` reports an error the source returns early, before
`c.Conn = nil`, so the handle is retained. -/
theorem disconnect_claim_false_on_close_error :
    (Disconnect demoConnected true).1.Conn ≠ none ∧
    (Disconnect demoConnected true).2 = true := by
  decide

/-- C6 (amended): Disconnect is an idempotent no-op when no connection is
held; when one is held and close succeeds, the handle is cleared and no
error returned; when close reports an error, the error is surfaced and the
session state is left unchanged — it keeps its connection handle and does
not transition to Disconnected. -/
theorem disconnect_amended (c : ModbusTcpClient) (closeErr : Bool) :
    (c.Conn = none → Disconnect c closeErr = (c, false)) ∧
    (c.Conn ≠ none → closeErr = false →
      (Disconnect c closeErr).1.Conn = none ∧
        (Disconnect c closeErr).2 = false) ∧
    (c.Conn ≠ none → closeErr = true →
      (Disconnect c closeErr).1 = c ∧ (Disconnect c closeErr).2 = true) := by
  rcases hc : c.Conn with _ | u <;> rcases closeErr <;> simp [Disconnect, hc]

/-- C6 witness: a disconnected session is a no-op; a connected session
whose close succeeds ends with no handle. -/
theorem disconnect_amended_witness :
    Disconnect demoClient false = (demoClient, false) ∧
    (Disconnect demoConnected false).1.Conn = none :=
  ⟨(disconnect_amended demoClient false).1 rfl,
   ((disconnect_amended demoConnected false).2.1 (by decide) rfl).1⟩

/-- C7 counterexample: the claim says Connect dials the address formed
from the session's host and port fields (host:port), but the source passes
`c.IpAddress` alone to `dialer.Dial` — for the demo session it dials
"10.0.0.1", not "10.0.0.1:502". -/
theorem connect_addr_claim_false :
    connectAddr demoClient = "10.0.0.1" ∧
    specConnectAddr demoClient = "10.0.0.1:502" ∧
    connectAddr demoClient ≠ specConnectAddr demoClient := by
  refine ⟨rfl, by decide, by decide⟩

/-- C7 (amended): Connect first sets the session's timeout to the 5000 ms
default whenever no positive timeout is configured, then dials the address
given by the session's IpAddress field alone — the Port field does not
enter the dialed address — and on dial failure the session is left without
a connection handle. -/
theorem connect_amended (c : ModbusTcpClient) (dialOk : Bool) :
    ((Connect c dialOk).1.Timeout =
      if c.Timeout ≤ 0 then TimeoutMillis else c.Timeout) ∧
    (∀ p : Int, connectAddr { c with Port := p } = connectAddr c) ∧
    (dialOk = false → (Connect c dialOk).1.Conn = none) := by
  rcases dialOk <;> by_cases h : c.Timeout ≤ 0 <;>
    simp [Connect, connectAddr, h]

/-- C7 witness: the demo session (timeout 0) gets the 5000 ms default, and
a failed dial leaves no handle. -/
theorem connect_amended_witness :
    (Connect demoClient false).1.Timeout = 5000 ∧
    (Connect demoClient false).1.Conn = none :=
  ⟨by simpa using (connect_amended demoClient false).1,
   (connect_amended demoClient false).2.2 rfl⟩

/-- C8: after reset to seed 0xFFFF the checksum engine folds bytes by the
reflected CRC-16 reduction with polynomial 0xA001 (the definitions
`CRC.Reset`, `crcPushByte`, `CRC.PushBytes`); pushing [0x02, 0x07] from a
fresh reset yields the value 0x4112 required by the in-repo test, and
pushing the same bytes in reverse order yields a different value. -/
theorem crc_test_vector :
    (CRC.Reset.PushBytes [0x02, 0x07]).Value = 0x4112 ∧
    (CRC.Reset.PushBytes [0x07, 0x02]).Value ≠
      (CRC.Reset.PushBytes [0x02, 0x07]).Value := by
  decide

/-- C9: the exception-code mapper is total and pure: codes 1–6 and 10 map
to their named errors and every other integer (such as 77, used by the
witness) maps to the generic unknown error. -/
theorem failure_code_table (c : Int) (h1 : c ≠ 1) (h2 : c ≠ 2) (h3 : c ≠ 3)
    (h4 : c ≠ 4) (h5 : c ≠ 5) (h6 : c ≠ 6) (h10 : c ≠ 10) :
    FailureCodeToError 1 = ModbusError.illegalFunction ∧
    FailureCodeToError 2 = ModbusError.illegalDataAddress ∧
    FailureCodeToError 3 = ModbusError.illegalDataValue ∧
    FailureCodeToError 4 = ModbusError.slaveDeviceFailure ∧
    FailureCodeToError 5 = ModbusError.acknowledge ∧
    FailureCodeToError 6 = ModbusError.slaveIsBusy ∧
    FailureCodeToError 10 = ModbusError.gatewayPathUnavailable ∧
    FailureCodeToError c = ModbusError.unknown := by
  refine ⟨by decide, by decide, by decide, by decide, by decide, by decide,
    by decide, ?_⟩
  simp [FailureCodeToError, ExcIllegalFunction, ExcIllegalDataAdr,
    ExcIllegalDataVal, ExcSlaveDeviceFailure, ExcAcknowledge, ExcSlaveIsBusy,
    ExcGatePathUnavailable, h1, h2, h3, h4, h5, h6, h10]

/-- C9 witness: the table at code 77. -/
theorem failure_code_table_witness :
    FailureCodeToError 2 = ModbusError.illegalDataAddress ∧
    FailureCodeToError 77 = ModbusError.unknown :=
  ⟨(failure_code_table 77 (by decide) (by decide) (by decide) (by decide)
      (by decide) (by decide) (by decide)).2.1,
   (failure_code_table 77 (by decide) (by decide) (by decide) (by decide)
      (by decide) (by decide) (by decide)).2.2.2.2.2.2.2⟩

/-- C10: on frames of at least seven bytes each, the outcome of Verify
depends only on the first seven bytes of each frame — two runs whose
request frames and response frames agree on bytes 0 through 6 produce
identical results, however the frames differ from offset 7 on. -/
theorem verify_depends_on_header (r1 s1 r2 s2 : List Nat)
    (hr1 : 7 ≤ r1.length) (hs1 : 7 ≤ s1.length)
    (hr2 : 7 ≤ r2.length) (hs2 : 7 ≤ s2.length)
    (hreq : r1.take 7 = r2.take 7) (hres : s1.take 7 = s2.take 7) :
    Verify r1 s1 = Verify r2 s2 := by
  have e0 : readU16 r1 0 = readU16 r2 0 := by
    unfold readU16
    rw [getD_eq_of_take7 r1 r2 hreq 0 (by omega),
      getD_eq_of_take7 r1 r2 hreq 1 (by omega)]
  have e2 : readU16 r1 2 = readU16 r2 2 := by
    unfold readU16
    rw [getD_eq_of_take7 r1 r2 hreq 2 (by omega),
      getD_eq_of_take7 r1 r2 hreq 3 (by omega)]
  have e6 : r1.getD 6 0 = r2.getD 6 0 :=
    getD_eq_of_take7 r1 r2 hreq 6 (by omega)
  have f0 : readU16 s1 0 = readU16 s2 0 := by
    unfold readU16
    rw [getD_eq_of_take7 s1 s2 hres 0 (by omega),
      getD_eq_of_take7 s1 s2 hres 1 (by omega)]
  have f2 : readU16 s1 2 = readU16 s2 2 := by
    unfold readU16
    rw [getD_eq_of_take7 s1 s2 hres 2 (by omega),
      getD_eq_of_take7 s1 s2 hres 3 (by omega)]
  have f6 : s1.getD 6 0 = s2.getD 6 0 :=
    getD_eq_of_take7 s1 s2 hres 6 (by omega)
  rw [verify_fields r1 s1 hr1 hs1, verify_fields r2 s2 hr2 hs2,
    e0, e2, e6, f0, f2, f6]

/-- C10 witness: two pairs of frames with identical headers but different
bodies and lengths give the same verification outcome. -/
theorem verify_depends_on_header_witness :
    Verify [0, 1, 0, 0, 0, 2, 17, 3] [0, 1, 0, 0, 0, 2, 17, 3, 9, 9] =
      Verify [0, 1, 0, 0, 0, 2, 17, 99] [0, 1, 0, 0, 0, 2, 17] :=
  verify_depends_on_header [0, 1, 0, 0, 0, 2, 17, 3]
    [0, 1, 0, 0, 0, 2, 17, 3, 9, 9] [0, 1, 0, 0, 0, 2, 17, 99]
    [0, 1, 0, 0, 0, 2, 17] (by decide) (by decide) (by decide) (by decide)
    (by decide) (by decide)

end ModbusTcp
